import Mathlib

/-!
# Verification of the opprice valuation workflow and history ledger

Shallow embedding of the client-side valuation application:

* the data model of `src/types/index.ts` (`ValuationResult`, `ResearchStatus`);
* the mock valuation service of `src/services/PricingAssistant.ts`
  (its three hard-coded scenarios);
* the Gemini-backed service module (response handling, module
  initialization, and the response schema it configures);
* the `App` component's state and its operations: `handleValuation`
  (phase sequence, collaborator call, history append, failure path),
  the history `useState` initializer, the history persistence effect,
  `exportResults` and `clearHistory`.

JavaScript numbers are modelled as rationals (every price in the
repository is a short decimal), strings as Lean strings, and JSON
documents as a `Json` value tree; `JSON.stringify`/`JSON.parse` on the
single-slot local storage and on the export artifact are modelled at the
level of these document trees, since the repository never inspects the
serialized text itself.
-/

namespace OpPrice

/-- JSON documents, as produced by `JSON.parse` and consumed by
`JSON.stringify` in the browser. Numbers are modelled as rationals. -/
inductive Json where
  | null
  | bool (b : Bool)
  | num (q : ℚ)
  | str (s : String)
  | arr (elems : List Json)
  | obj (fields : List (String × Json))

/-- `DemandLevel` from `src/types/index.ts`. -/
inductive DemandLevel where
  | High
  | Medium
  | Low
deriving DecidableEq

/-- `ConfidenceLevel` from `src/types/index.ts`. -/
inductive ConfidenceLevel where
  | High
  | Medium
  | Low
deriving DecidableEq

/-- `EthicalCheckResult` from `src/types/index.ts`:
`'Pass' | 'Fail' | 'Check Carefully'`. -/
inductive EthicalCheckResult where
  | Pass
  | Fail
  | CheckCarefully
deriving DecidableEq

/-- `FlagType` from `src/types/index.ts`, a closed enumeration of
advisory tags. -/
inductive FlagType where
  | PotentialCounterfeit
  | HighValueLuxury
  | SafetyRecall
  | ElectricalTesting
  | EthicalCheckFailed
  | NoIssuesDetected
deriving DecidableEq

/-- The `ethicalCheck` object of a `ValuationResult`. -/
structure EthicalCheck where
  status : EthicalCheckResult
  message : String
deriving DecidableEq

/-- The `marketValue` bounds object of a `ValuationResult`. -/
structure MarketValue where
  min : ℚ
  max : ℚ
deriving DecidableEq

/-- `ValuationResult` from `src/types/index.ts`. The interface itself
declares neither `sources` nor `timestamp`, but `App.tsx` reads both
from result objects (`result.sources`, `result.timestamp`) and
`handleValuation` stamps `timestamp` onto every result it stores, so
both appear here as optional fields (absent = the JS property is
missing from the object). -/
structure ValuationResult where
  itemName : String
  conditionAssumption : String
  ethicalCheck : EthicalCheck
  marketStatus : String
  newRetailPrice : String
  onlineResaleValue : ℚ
  marketValue : MarketValue
  demandLevel : DemandLevel
  recommendedPrice : ℚ
  confidenceLevel : ConfidenceLevel
  flag : FlagType
  salesTip : String
  sources : Option (List String) := none
  timestamp : Option String := none
deriving DecidableEq

/-- `ResearchStatus.step` values from `src/types/index.ts`. -/
inductive Step where
  | idle
  | analyzing
  | searching
  | assessing
  | finalizing
deriving DecidableEq

/-- `ResearchStatus` from `src/types/index.ts`. -/
structure ResearchStatus where
  step : Step
  message : String
deriving DecidableEq

/-! ## The mock valuation service (`src/services/PricingAssistant.ts`)

`PricingAssistantService.analyzeItem` in the mock service returns one of
three hard-coded scenarios, chosen by `Math.floor(Math.random() * 3)`.
The random draw is modelled as an index parameter. -/

/-- The three `scenarios` of the mock `analyzeItem`, transcribed
field-by-field from `src/services/PricingAssistant.ts`. -/
def scenarios : List ValuationResult :=
  [{ itemName := "Kathmandu Epiq Men's Down Jacket"
     conditionAssumption := "Good used condition, slight fading on cuffs, all zippers functional"
     ethicalCheck := { status := EthicalCheckResult.Pass
                       message := "No restricted materials detected." }
     marketStatus := "Quality Brand - High local demand"
     newRetailPrice := "$349.98 NZD"
     onlineResaleValue := 180
     marketValue := { min := 120, max := 180 }
     demandLevel := DemandLevel.High
     recommendedPrice := 65
     confidenceLevel := ConfidenceLevel.High
     flag := FlagType.NoIssuesDetected
     salesTip := "Put on the 'Boutique' rack - this is a high-demand seasonal item." },
   { itemName := "Vintage style 3/4 Coat"
     conditionAssumption := "Excellent vintage condition, but fur trim detected"
     ethicalCheck := { status := EthicalCheckResult.Fail
                       message := "⚠️ WARNING: LOOKS LIKE REAL RABBIT FUR. Please check roots for skin vs mesh. If real, do not sell." }
     marketStatus := "Niche Vintage / Potential restricted material"
     newRetailPrice := "Unknown (Vintage)"
     onlineResaleValue := 60
     marketValue := { min := 0, max := 60 }
     demandLevel := DemandLevel.Low
     recommendedPrice := 0
     confidenceLevel := ConfidenceLevel.Medium
     flag := FlagType.EthicalCheckFailed
     salesTip := "Recycle/Discard if real fur. If faux fur, price at $15.00." },
   { itemName := "Anko Ceramic Vase (White)"
     conditionAssumption := "Brand new condition"
     ethicalCheck := { status := EthicalCheckResult.Pass
                       message := "Safe to sell - synthetic ceramic." }
     marketStatus := "Common Kmart item"
     newRetailPrice := "$12.00 NZD"
     onlineResaleValue := 5
     marketValue := { min := 2, max := 5 }
     demandLevel := DemandLevel.Medium
     recommendedPrice := 4
     confidenceLevel := ConfidenceLevel.High
     flag := FlagType.NoIssuesDetected
     salesTip := "Put in the homewares section. Standard budget item." }]

/-- The mock `analyzeItem`: returns `scenarios[i]` where `i` models the
`Math.floor(Math.random() * scenarios.length)` draw. -/
def analyzeItemMock (i : Fin scenarios.length) : ValuationResult :=
  scenarios.get i

/-! ## The Gemini-backed service module

The second `PricingAssistantService` (the Gemini one) configures a
`responseSchema` for the collaborator and then handles the response
with `JSON.parse(text) as ValuationResult`. -/

/-- Is this optional JSON value a present string? -/
def isStr : Option Json → Bool
  | some (Json.str _) => true
  | _ => false

/-- Is this optional JSON value a present number? -/
def isNum : Option Json → Bool
  | some (Json.num _) => true
  | _ => false

/-- Is this optional JSON value a present string drawn from `allowed`? -/
def isEnumStr (allowed : List String) : Option Json → Bool
  | some (Json.str s) => allowed.contains s
  | _ => false

/-- Field-by-field check of the `ethicalCheck` member against the
`responseSchema` declared in the Gemini service module: an object with
required `status` (one of the three enum strings) and `message`. -/
def validEthicalCheckJson : Option Json → Bool
  | some (Json.obj fs) =>
      isEnumStr ["Pass", "Fail", "Check Carefully"] (fs.lookup "status") &&
      isStr (fs.lookup "message")
  | _ => false

/-- Field-by-field check of the `marketValue` member against the
`responseSchema`: an object with required numeric `min` and `max`. -/
def validMarketValueJson : Option Json → Bool
  | some (Json.obj fs) =>
      isNum (fs.lookup "min") && isNum (fs.lookup "max")
  | _ => false

/-- Field-by-field validation of a JSON document against the
`responseSchema` the Gemini service declares (all twelve required
members with their declared types and enumerations). This is what a
schema validation of the collaborator response would check; the service
itself never runs such a check. -/
def validValuationJson : Json → Bool
  | Json.obj fs =>
      isStr (fs.lookup "itemName") &&
      isStr (fs.lookup "conditionAssumption") &&
      validEthicalCheckJson (fs.lookup "ethicalCheck") &&
      isStr (fs.lookup "marketStatus") &&
      isStr (fs.lookup "newRetailPrice") &&
      isNum (fs.lookup "onlineResaleValue") &&
      validMarketValueJson (fs.lookup "marketValue") &&
      isEnumStr ["High", "Medium", "Low"] (fs.lookup "demandLevel") &&
      isNum (fs.lookup "recommendedPrice") &&
      isEnumStr ["High", "Medium", "Low"] (fs.lookup "confidenceLevel") &&
      isStr (fs.lookup "flag") &&
      isStr (fs.lookup "salesTip")
  | _ => false

/-- Errors the Gemini `analyzeItem` can raise while handling a response
that did arrive: the only failure point is `JSON.parse` throwing on
text that is not valid JSON. -/
inductive AnalyzeError where
  | jsonParseError
deriving DecidableEq

/-- Response handling of the Gemini `analyzeItem`
(`return JSON.parse(text) as ValuationResult`): the argument is the
outcome of `JSON.parse` on the response text (`none` when the text is
not valid JSON, in which case `JSON.parse` throws). A successfully
parsed document is returned to the caller by an unchecked type cast,
with no inspection of its fields. -/
def analyzeItemResponse : Option Json → Except AnalyzeError Json
  | none => Except.error AnalyzeError.jsonParseError
  | some j => Except.ok j

/-- Startup failures the application could raise over its
configuration. -/
inductive StartupError where
  | missingApiKey
deriving DecidableEq

/-- The collaborator client object: the `GoogleGenerativeAI`
constructor stores the key it is given (it performs no validation). -/
structure GenAIClient where
  apiKey : Option String
deriving DecidableEq

/-- Module initialization of the Gemini service:
`const API_KEY = import.meta.env.VITE_GEMINI_API_KEY;`
`const genAI = new GoogleGenerativeAI(API_KEY);`
The environment value (`none` when the secret is absent) is read and
handed to the client constructor unconditionally; no presence check
occurs and no exception is raised at startup. -/
def moduleInit (env : Option String) : Except StartupError GenAIClient :=
  Except.ok { apiKey := env }

/-! ## Serialization of results and of the history

`App.tsx` serializes the history with `JSON.stringify(history)` (the
persistence effect) and `JSON.stringify(history, null, 2)` (the bulk
export); both produce the same JSON document, differing only in
whitespace, so both are modelled by `encodeHistory`. Decoding reads
such a document back into the data model, as `JSON.parse` on the
exported artifact does. -/

/-- The JSON string for an `EthicalCheckResult` value. -/
def statusString : EthicalCheckResult → String
  | EthicalCheckResult.Pass => "Pass"
  | EthicalCheckResult.Fail => "Fail"
  | EthicalCheckResult.CheckCarefully => "Check Carefully"

/-- Read an `EthicalCheckResult` back from its JSON string. -/
def statusOfString : String → Option EthicalCheckResult
  | "Pass" => some EthicalCheckResult.Pass
  | "Fail" => some EthicalCheckResult.Fail
  | "Check Carefully" => some EthicalCheckResult.CheckCarefully
  | _ => none

/-- The JSON string for a `DemandLevel` value. -/
def demandString : DemandLevel → String
  | DemandLevel.High => "High"
  | DemandLevel.Medium => "Medium"
  | DemandLevel.Low => "Low"

/-- Read a `DemandLevel` back from its JSON string. -/
def demandOfString : String → Option DemandLevel
  | "High" => some DemandLevel.High
  | "Medium" => some DemandLevel.Medium
  | "Low" => some DemandLevel.Low
  | _ => none

/-- The JSON string for a `ConfidenceLevel` value. -/
def confidenceString : ConfidenceLevel → String
  | ConfidenceLevel.High => "High"
  | ConfidenceLevel.Medium => "Medium"
  | ConfidenceLevel.Low => "Low"

/-- Read a `ConfidenceLevel` back from its JSON string. -/
def confidenceOfString : String → Option ConfidenceLevel
  | "High" => some ConfidenceLevel.High
  | "Medium" => some ConfidenceLevel.Medium
  | "Low" => some ConfidenceLevel.Low
  | _ => none

/-- The JSON string for a `FlagType` value, as written in
`src/types/index.ts`. -/
def flagString : FlagType → String
  | FlagType.PotentialCounterfeit => "Potential counterfeit"
  | FlagType.HighValueLuxury => "High-value / luxury item (needs authentication)"
  | FlagType.SafetyRecall => "Safety recall"
  | FlagType.ElectricalTesting => "Electrical testing required"
  | FlagType.EthicalCheckFailed => "Ethical Check Failed"
  | FlagType.NoIssuesDetected => "No issues detected"

/-- Read a `FlagType` back from its JSON string. -/
def flagOfString : String → Option FlagType
  | "Potential counterfeit" => some FlagType.PotentialCounterfeit
  | "High-value / luxury item (needs authentication)" => some FlagType.HighValueLuxury
  | "Safety recall" => some FlagType.SafetyRecall
  | "Electrical testing required" => some FlagType.ElectricalTesting
  | "Ethical Check Failed" => some FlagType.EthicalCheckFailed
  | "No issues detected" => some FlagType.NoIssuesDetected
  | _ => none

/-- `JSON.stringify` of the `ethicalCheck` member, as a document. -/
def encodeEthicalCheck (e : EthicalCheck) : Json :=
  Json.obj [("status", Json.str (statusString e.status)),
            ("message", Json.str e.message)]

/-- `JSON.stringify` of one `ValuationResult` object, as a document:
the declared fields in declaration order, with the optional `sources`
and `timestamp` properties present exactly when the object carries
them (`JSON.stringify` omits absent properties). -/
def encodeValuation (r : ValuationResult) : Json :=
  Json.obj
    ([("itemName", Json.str r.itemName),
      ("conditionAssumption", Json.str r.conditionAssumption),
      ("ethicalCheck", encodeEthicalCheck r.ethicalCheck),
      ("marketStatus", Json.str r.marketStatus),
      ("newRetailPrice", Json.str r.newRetailPrice),
      ("onlineResaleValue", Json.num r.onlineResaleValue),
      ("marketValue", Json.obj [("min", Json.num r.marketValue.min),
                                ("max", Json.num r.marketValue.max)]),
      ("demandLevel", Json.str (demandString r.demandLevel)),
      ("recommendedPrice", Json.num r.recommendedPrice),
      ("confidenceLevel", Json.str (confidenceString r.confidenceLevel)),
      ("flag", Json.str (flagString r.flag)),
      ("salesTip", Json.str r.salesTip)]
     ++ (match r.sources with
         | none => []
         | some ss => [("sources", Json.arr (ss.map Json.str))])
     ++ (match r.timestamp with
         | none => []
         | some t => [("timestamp", Json.str t)]))

/-- Read a string out of a JSON value. -/
def asStr : Json → Option String
  | Json.str s => some s
  | _ => none

/-- Read a number out of a JSON value. -/
def asNum : Json → Option ℚ
  | Json.num q => some q
  | _ => none

/-- Read an `EthicalCheck` back from its JSON document. -/
def decodeEthicalCheck : Json → Option EthicalCheck
  | Json.obj fs => do
      let st ← (fs.lookup "status").bind fun j => (asStr j).bind statusOfString
      let msg ← (fs.lookup "message").bind asStr
      pure { status := st, message := msg }
  | _ => none

/-- Read a `MarketValue` back from its JSON document. -/
def decodeMarketValue : Json → Option MarketValue
  | Json.obj fs => do
      let mn ← (fs.lookup "min").bind asNum
      let mx ← (fs.lookup "max").bind asNum
      pure { min := mn, max := mx }
  | _ => none

/-- Decode every element of a list, failing when any element fails. -/
def decodeEach {α β : Type} (f : α → Option β) : List α → Option (List β)
  | [] => some []
  | x :: xs => do
      let y ← f x
      let ys ← decodeEach f xs
      pure (y :: ys)

/-- Read the optional `sources` property: an absent key decodes to an
absent field, a present key must be an array of strings. -/
def decodeSources (fs : List (String × Json)) : Option (Option (List String)) :=
  match fs.lookup "sources" with
  | none => some none
  | some (Json.arr xs) => (decodeEach asStr xs).map some
  | some _ => none

/-- Read the optional `timestamp` property: an absent key decodes to an
absent field, a present key must be a string. -/
def decodeTimestamp (fs : List (String × Json)) : Option (Option String) :=
  match fs.lookup "timestamp" with
  | none => some none
  | some (Json.str t) => some (some t)
  | some _ => none

/-- Read one `ValuationResult` back from its JSON document. -/
def decodeValuation : Json → Option ValuationResult
  | Json.obj fs => do
      let itemName ← (fs.lookup "itemName").bind asStr
      let conditionAssumption ← (fs.lookup "conditionAssumption").bind asStr
      let ethicalCheck ← (fs.lookup "ethicalCheck").bind decodeEthicalCheck
      let marketStatus ← (fs.lookup "marketStatus").bind asStr
      let newRetailPrice ← (fs.lookup "newRetailPrice").bind asStr
      let onlineResaleValue ← (fs.lookup "onlineResaleValue").bind asNum
      let marketValue ← (fs.lookup "marketValue").bind decodeMarketValue
      let demandLevel ← (fs.lookup "demandLevel").bind fun j => (asStr j).bind demandOfString
      let recommendedPrice ← (fs.lookup "recommendedPrice").bind asNum
      let confidenceLevel ← (fs.lookup "confidenceLevel").bind fun j => (asStr j).bind confidenceOfString
      let flag ← (fs.lookup "flag").bind fun j => (asStr j).bind flagOfString
      let salesTip ← (fs.lookup "salesTip").bind asStr
      let sources ← decodeSources fs
      let timestamp ← decodeTimestamp fs
      pure { itemName := itemName, conditionAssumption := conditionAssumption,
             ethicalCheck := ethicalCheck, marketStatus := marketStatus,
             newRetailPrice := newRetailPrice, onlineResaleValue := onlineResaleValue,
             marketValue := marketValue, demandLevel := demandLevel,
             recommendedPrice := recommendedPrice, confidenceLevel := confidenceLevel,
             flag := flag, salesTip := salesTip, sources := sources,
             timestamp := timestamp }
  | _ => none

/-- The JSON document `JSON.stringify` produces for the whole history
sequence: an array of the entries in order. -/
def encodeHistory (h : List ValuationResult) : Json :=
  Json.arr (h.map encodeValuation)

/-- Read a history sequence back from its JSON document. -/
def decodeHistory : Json → Option (List ValuationResult)
  | Json.arr xs => decodeEach decodeValuation xs
  | _ => none

/-! ## The App component state and its operations (`src/App.tsx`)

The pieces of `useState` state that the claims concern, plus the
single-slot local storage cell (`storage`, holding the document last
written by `localStorage.setItem`, modelled at document level). The
camera and preview-URL machinery is out of scope of the claims;
`file` is modelled by an opaque name. -/

/-- The App state relevant to the valuation workflow and the ledger. -/
structure AppState where
  file : Option String
  preview : Option String
  status : ResearchStatus
  result : Option ValuationResult
  history : List ValuationResult
  storage : Option Json

/-- The persistence effect (`useEffect` over `[history]`): write the
serialized history into the single storage slot. React runs it exactly
when the `history` state changes, so the transition functions below
apply it exactly on the paths that mutate `history`. -/
def persistHistory (s : AppState) : AppState :=
  { s with storage := some (encodeHistory s.history) }

/-- Observable actions of one `handleValuation` run, in the order the
code performs them. -/
inductive Event where
  | clearResult
  | setStatus (st : ResearchStatus)
  | dwell (ms : ℕ)
  | callCollaborator
  | setResult (r : ValuationResult)
  | appendHistory (r : ValuationResult)
  | setIdle (message : String)
  | fireConfetti
deriving DecidableEq

/-- The outcome of the awaited collaborator call
(`PricingAssistantService.analyzeItem`): a result, or a thrown
error / rejected promise. -/
inductive CollabOutcome where
  | ok (data : ValuationResult)
  | err
deriving DecidableEq

/-- The `steps` array of `handleValuation`, transcribed from
`src/App.tsx`. -/
def steps : List ResearchStatus :=
  [{ step := Step.analyzing, message := "Analyzing item brand and model..." },
   { step := Step.searching, message := "Scanning Trade Me & FB Marketplace..." },
   { step := Step.searching, message := "Benchmarking NZ retail prices..." },
   { step := Step.assessing, message := "Calculating local demand indices..." },
   { step := Step.finalizing, message := "Generating optimal pricing strategy..." }]

/-- The `for (const s of steps)` loop of `handleValuation`: set the
status to each step in turn and dwell 800ms on it. Returns the state
after the loop together with the actions performed. -/
def phaseLoop (ss : List ResearchStatus) (s : AppState) : AppState × List Event :=
  match ss with
  | [] => (s, [])
  | st :: rest =>
      let tail := phaseLoop rest { s with status := st }
      (tail.1, Event.setStatus st :: Event.dwell 800 :: tail.2)

/-- `handleValuation` from `src/App.tsx`. `stamp` is the value of
`new Date().toISOString()` taken on completion; `outcome` is the
behavior of the awaited collaborator call. Mirrors the source line by
line: the `!file` guard; `setResult(null)`; the paced phase loop; the
single collaborator call; on success the timestamped result is stored,
prepended to the history truncated to 50 (whereupon the persistence
effect runs), the status returns to idle and confetti fires on an
ethical Pass; on a thrown error the status returns to idle carrying
the failure message and nothing else changes. -/
def handleValuation (stamp : String) (outcome : CollabOutcome) (s : AppState) :
    AppState × List Event :=
  match s.file with
  | none => (s, [])
  | some _ =>
      let s1 : AppState := { s with result := none }
      let phases := phaseLoop steps s1
      let pre : List Event :=
        Event.clearResult :: phases.2 ++ [Event.callCollaborator]
      match outcome with
      | CollabOutcome.ok data =>
          let r : ValuationResult := { data with timestamp := some stamp }
          let s3 : AppState :=
            { phases.1 with
              result := some r,
              history := (r :: phases.1.history).take 50,
              status := { step := Step.idle, message := "" } }
          (persistHistory s3,
           pre ++ [Event.setResult r, Event.appendHistory r, Event.setIdle ""] ++
             (if data.ethicalCheck.status = EthicalCheckResult.Pass then
               [Event.fireConfetti] else []))
      | CollabOutcome.err =>
          ({ phases.1 with status := { step := Step.idle, message := "Analysis failed." } },
           pre)

/-- The `useState` initializer for `history` (`src/App.tsx`): read the
persisted slot; when a string is present (and, being used as a
JavaScript truth value, non-empty) try to parse it, returning the
parsed value; on a parse exception, or with no usable saved string,
start from the empty array. `parse` is the browser primitive
`JSON.parse`, passed as a parameter; `none` models a thrown
`SyntaxError`. -/
def initHistory (parse : String → Option Json) (saved : Option String) : Json :=
  match saved with
  | none => Json.arr []
  | some s =>
      if s = "" then Json.arr []
      else
        match parse s with
        | some j => j
        | none => Json.arr []

/-- `exportResults` from `src/App.tsx`: a no-op on an empty history
(`none`), otherwise the JSON document serialized into the downloaded
artifact (`JSON.stringify(history, null, 2)`, at document level). -/
def exportResults (h : List ValuationResult) : Option Json :=
  if h = [] then none
  else some (encodeHistory h)

/-- `clearHistory` from `src/App.tsx`: `confirmed` is the value of the
`confirm(...)` prompt; only when it is accepted is the history emptied
(whereupon the persistence effect writes the empty sequence). -/
def clearHistory (confirmed : Bool) (s : AppState) : AppState :=
  if confirmed then persistHistory { s with history := [] } else s

/-! ## Concrete fixtures used to exercise the theorems -/

/-- A concrete valuation result used as a test input. -/
def sampleResult : ValuationResult :=
  { itemName := "Test Jacket"
    conditionAssumption := "Good used condition"
    ethicalCheck := { status := EthicalCheckResult.Pass, message := "No restricted materials detected." }
    marketStatus := "Quality Brand"
    newRetailPrice := "$100.00 NZD"
    onlineResaleValue := 10
    marketValue := { min := 5, max := 10 }
    demandLevel := DemandLevel.High
    recommendedPrice := 4
    confidenceLevel := ConfidenceLevel.High
    flag := FlagType.NoIssuesDetected
    salesTip := "Boutique rack." }

/-- A concrete app state with a selected image and an empty ledger. -/
def sampleState : AppState :=
  { file := some "photo.jpg"
    preview := some "blob:preview"
    status := { step := Step.idle, message := "" }
    result := none
    history := []
    storage := none }

/-- The sample state with a full ledger of fifty entries. -/
def sampleStateFull : AppState :=
  { sampleState with history := List.replicate 50 sampleResult }

/-- The sample state with no selected image. -/
def sampleStateNoFile : AppState :=
  { sampleState with file := none }

/-- A concrete stand-in for the browser `JSON.parse` used to exercise
the startup loader: it parses exactly the text of the empty array and
throws (returns `none`) on everything else, in particular on the empty
string, as `JSON.parse` does. -/
def parseStub : String → Option Json :=
  fun t => if t = "[]" then some (Json.arr []) else none

/-! ## Serialization lemmas -/

/-- Enum round trip for ethical statuses. -/
theorem statusOfString_statusString (s : EthicalCheckResult) :
    statusOfString (statusString s) = some s := by cases s <;> rfl

/-- Enum round trip for demand levels. -/
theorem demandOfString_demandString (d : DemandLevel) :
    demandOfString (demandString d) = some d := by cases d <;> rfl

/-- Enum round trip for confidence levels. -/
theorem confidenceOfString_confidenceString (c : ConfidenceLevel) :
    confidenceOfString (confidenceString c) = some c := by cases c <;> rfl

/-- Enum round trip for advisory flags. -/
theorem flagOfString_flagString (f : FlagType) :
    flagOfString (flagString f) = some f := by cases f <;> rfl

/-- Decoding an encoded list of strings recovers it. -/
theorem decodeEach_asStr (ss : List String) :
    decodeEach asStr (ss.map Json.str) = some ss := by
  induction ss with
  | nil => rfl
  | cons x xs ih => simp [decodeEach, asStr, ih]

/-- Decoding an encoded `ValuationResult` document recovers the
original object. -/
theorem decodeValuation_encodeValuation (r : ValuationResult) :
    decodeValuation (encodeValuation r) = some r := by
  obtain ⟨n, c, ⟨st, msg⟩, ms, nr, orv, ⟨mn, mx⟩, dl, rp, cl, fl, tip, src, ts⟩ := r
  cases src <;> cases ts <;>
    simp [encodeValuation, decodeValuation, decodeEthicalCheck, encodeEthicalCheck,
      decodeMarketValue, decodeSources, decodeTimestamp, asStr, asNum, List.lookup,
      statusOfString_statusString, demandOfString_demandString,
      confidenceOfString_confidenceString, flagOfString_flagString, decodeEach_asStr]

/-- Decoding an encoded history document recovers the sequence. -/
theorem decodeHistory_encodeHistory (h : List ValuationResult) :
    decodeHistory (encodeHistory h) = some h := by
  show decodeEach decodeValuation (h.map encodeValuation) = some h
  induction h with
  | nil => rfl
  | cons x xs ih => simp [decodeEach, decodeValuation_encodeValuation, ih]

/-! ## The claims -/

/-- C1, counterexample: the Gemini `analyzeItem` does not validate the
collaborator response against the schema. The well-formed JSON document
`{}` fails every required-field check of the `responseSchema`, yet the
service returns it to the caller unchanged instead of surfacing a
`MalformedResponse` error. -/
theorem analyzeItem_returns_schema_invalid_response :
    analyzeItemResponse (some (Json.obj [])) = Except.ok (Json.obj []) ∧
    validValuationJson (Json.obj []) = false :=
  ⟨rfl, rfl⟩

/-- C1, amended: the only response failure the Gemini `analyzeItem`
surfaces is `JSON.parse` throwing on text that is not valid JSON; every
parseable response document, schema-conformant or not, is returned to
the caller by an unchecked cast. -/
theorem analyzeItem_parse_only_no_validation (j : Json) :
    analyzeItemResponse (some j) = Except.ok j ∧
    analyzeItemResponse none = Except.error AnalyzeError.jsonParseError :=
  ⟨rfl, rfl⟩

/-- C2: on a successful valuation, the new timestamped entry lands at
index 0 of the history, the history never exceeds 50 entries, appending
to a full ledger of 50 drops the oldest (last) entry, and the storage
slot afterwards holds exactly the serialization of the new history. -/
theorem handleValuation_append_truncate_persist (s : AppState) (stamp : String)
    (data : ValuationResult) (f : String) (h : s.file = some f) :
    ((handleValuation stamp (CollabOutcome.ok data) s).1).history.head? =
      some { data with timestamp := some stamp } ∧
    ((handleValuation stamp (CollabOutcome.ok data) s).1).history.length ≤ 50 ∧
    (s.history.length = 50 →
      ((handleValuation stamp (CollabOutcome.ok data) s).1).history =
        { data with timestamp := some stamp } :: s.history.take 49) ∧
    ((handleValuation stamp (CollabOutcome.ok data) s).1).storage =
      some (encodeHistory ((handleValuation stamp (CollabOutcome.ok data) s).1).history) := by
  have key0 : ((handleValuation stamp (CollabOutcome.ok data) s).1).history =
      ({ data with timestamp := some stamp } :: s.history).take 50 := by
    simp [handleValuation, phaseLoop, steps, h, persistHistory]
  have key : ((handleValuation stamp (CollabOutcome.ok data) s).1).history =
      { data with timestamp := some stamp } :: s.history.take 49 := by
    rw [key0, show (50 : ℕ) = 49 + 1 from rfl, List.take_succ_cons]
  have keyst : ((handleValuation stamp (CollabOutcome.ok data) s).1).storage =
      some (encodeHistory (({ data with timestamp := some stamp } :: s.history).take 50)) := by
    simp [handleValuation, phaseLoop, steps, h, persistHistory]
  refine ⟨?_, ?_, fun _ => key, ?_⟩
  · rw [key]
    rfl
  · rw [key]
    simp only [List.length_cons, List.length_take]
    omega
  · rw [keyst, key0]

/-- C2, witness at a concrete full ledger of 50 entries. -/
theorem handleValuation_append_truncate_persist_witness :
    ((handleValuation "2025-01-01T00:00:00.000Z" (CollabOutcome.ok sampleResult) sampleStateFull).1).history.head? =
      some { sampleResult with timestamp := some "2025-01-01T00:00:00.000Z" } ∧
    ((handleValuation "2025-01-01T00:00:00.000Z" (CollabOutcome.ok sampleResult) sampleStateFull).1).history.length ≤ 50 ∧
    ((handleValuation "2025-01-01T00:00:00.000Z" (CollabOutcome.ok sampleResult) sampleStateFull).1).history =
      { sampleResult with timestamp := some "2025-01-01T00:00:00.000Z" } :: sampleStateFull.history.take 49 ∧
    ((handleValuation "2025-01-01T00:00:00.000Z" (CollabOutcome.ok sampleResult) sampleStateFull).1).storage =
      some (encodeHistory ((handleValuation "2025-01-01T00:00:00.000Z" (CollabOutcome.ok sampleResult) sampleStateFull).1).history) := by
  obtain ⟨h1, h2, h3, h4⟩ :=
    handleValuation_append_truncate_persist sampleStateFull "2025-01-01T00:00:00.000Z"
      sampleResult "photo.jpg" rfl
  exact ⟨h1, h2, h3 (by simp [sampleStateFull, sampleState]), h4⟩

/-- C3: when the collaborator call throws, the workflow returns to the
idle step carrying the failure message, the history and its persisted
serialization are untouched, no result is exposed, and the selected
image file is retained. -/
theorem handleValuation_failure_resets_and_preserves (s : AppState) (stamp : String)
    (f : String) (h : s.file = some f) :
    ((handleValuation stamp CollabOutcome.err s).1).status =
      { step := Step.idle, message := "Analysis failed." } ∧
    ((handleValuation stamp CollabOutcome.err s).1).history = s.history ∧
    ((handleValuation stamp CollabOutcome.err s).1).result = none ∧
    ((handleValuation stamp CollabOutcome.err s).1).file = s.file ∧
    ((handleValuation stamp CollabOutcome.err s).1).storage = s.storage := by
  simp [handleValuation, phaseLoop, steps, h]

/-- C3, witness at a concrete state with a selected image. -/
theorem handleValuation_failure_resets_and_preserves_witness :
    ((handleValuation "t" CollabOutcome.err sampleState).1).status =
      { step := Step.idle, message := "Analysis failed." } ∧
    ((handleValuation "t" CollabOutcome.err sampleState).1).history = sampleState.history ∧
    ((handleValuation "t" CollabOutcome.err sampleState).1).result = none ∧
    ((handleValuation "t" CollabOutcome.err sampleState).1).file = sampleState.file ∧
    ((handleValuation "t" CollabOutcome.err sampleState).1).storage = sampleState.storage :=
  handleValuation_failure_resets_and_preserves sampleState "t" "photo.jpg" rfl

/-- C4, counterexample: the third mock scenario (the Anko vase) has an
ethical status other than Fail, a recommended price of 4 and an online
resale value of 5, so its recommended price is 80 percent of the resale
value, outside the stated 30 to 40 percent policy band. -/
theorem scenario_price_outside_policy_band :
    (analyzeItemMock ⟨2, by decide⟩).ethicalCheck.status ≠ EthicalCheckResult.Fail ∧
    ¬ ((30 / 100 : ℚ) * (analyzeItemMock ⟨2, by decide⟩).onlineResaleValue ≤
         (analyzeItemMock ⟨2, by decide⟩).recommendedPrice ∧
       (analyzeItemMock ⟨2, by decide⟩).recommendedPrice ≤
         (40 / 100 : ℚ) * (analyzeItemMock ⟨2, by decide⟩).onlineResaleValue) := by
  constructor
  · decide
  · norm_num [analyzeItemMock, scenarios]

/-- C4, amended: every result the mock valuation service can produce
has a non-negative recommended price, and a failed ethical check forces
the recommended price to 0; the 30 to 40 percent relation to the online
resale value is prompt guidance to the collaborator, not an invariant
of the produced results. -/
theorem analyzeItemMock_nonneg_and_fail_zero (i : Fin scenarios.length) :
    0 ≤ (analyzeItemMock i).recommendedPrice ∧
    ((analyzeItemMock i).ethicalCheck.status = EthicalCheckResult.Fail →
      (analyzeItemMock i).recommendedPrice = 0) := by
  fin_cases i <;> constructor <;> norm_num [analyzeItemMock, scenarios] <;> decide

/-- C4, witness at the failing-scenario index 1, discharging the
ethical-failure hypothesis. -/
theorem analyzeItemMock_nonneg_and_fail_zero_witness :
    0 ≤ (analyzeItemMock ⟨1, by decide⟩).recommendedPrice ∧
    (analyzeItemMock ⟨1, by decide⟩).recommendedPrice = 0 :=
  ⟨(analyzeItemMock_nonneg_and_fail_zero ⟨1, by decide⟩).1,
   (analyzeItemMock_nonneg_and_fail_zero ⟨1, by decide⟩).2 (by decide)⟩

/-- C5: whatever the collaborator then does, a run with a selected
image performs, in order: the result clearing, the five phases
analyzing, searching, searching, assessing, finalizing (each followed
by its fixed 800ms dwell), and only then the collaborator call; the
remaining actions contain no further phase, and every result emission
lies among them, after the call. -/
theorem handleValuation_phase_order (s : AppState) (stamp : String)
    (outcome : CollabOutcome) (f : String) (h : s.file = some f) :
    ∃ tail,
      (handleValuation stamp outcome s).2 =
        Event.clearResult ::
        Event.setStatus { step := Step.analyzing, message := "Analyzing item brand and model..." } ::
        Event.dwell 800 ::
        Event.setStatus { step := Step.searching, message := "Scanning Trade Me & FB Marketplace..." } ::
        Event.dwell 800 ::
        Event.setStatus { step := Step.searching, message := "Benchmarking NZ retail prices..." } ::
        Event.dwell 800 ::
        Event.setStatus { step := Step.assessing, message := "Calculating local demand indices..." } ::
        Event.dwell 800 ::
        Event.setStatus { step := Step.finalizing, message := "Generating optimal pricing strategy..." } ::
        Event.dwell 800 ::
        Event.callCollaborator :: tail ∧
      (∀ st, Event.setStatus st ∉ tail) ∧
      (∀ r, Event.setResult r ∈ (handleValuation stamp outcome s).2 →
        Event.setResult r ∈ tail) := by
  cases outcome with
  | err =>
      refine ⟨[], by simp [handleValuation, phaseLoop, steps, h], by simp, ?_⟩
      intro r hr
      simp [handleValuation, phaseLoop, steps, h] at hr
  | ok data =>
      refine ⟨[Event.setResult { data with timestamp := some stamp },
               Event.appendHistory { data with timestamp := some stamp },
               Event.setIdle ""] ++
              (if data.ethicalCheck.status = EthicalCheckResult.Pass then
                [Event.fireConfetti] else []), ?_, ?_, ?_⟩
      · simp [handleValuation, phaseLoop, steps, h]
      · intro st
        split <;> simp
      · intro r hr
        simp only [handleValuation, phaseLoop, steps, h] at hr
        split at hr <;> split <;> simp_all

/-- C5, witness at a concrete state, with a failing collaborator. -/
theorem handleValuation_phase_order_witness :
    ∃ tail,
      (handleValuation "t" CollabOutcome.err sampleState).2 =
        Event.clearResult ::
        Event.setStatus { step := Step.analyzing, message := "Analyzing item brand and model..." } ::
        Event.dwell 800 ::
        Event.setStatus { step := Step.searching, message := "Scanning Trade Me & FB Marketplace..." } ::
        Event.dwell 800 ::
        Event.setStatus { step := Step.searching, message := "Benchmarking NZ retail prices..." } ::
        Event.dwell 800 ::
        Event.setStatus { step := Step.assessing, message := "Calculating local demand indices..." } ::
        Event.dwell 800 ::
        Event.setStatus { step := Step.finalizing, message := "Generating optimal pricing strategy..." } ::
        Event.dwell 800 ::
        Event.callCollaborator :: tail ∧
      (∀ st, Event.setStatus st ∉ tail) ∧
      (∀ r, Event.setResult r ∈ (handleValuation "t" CollabOutcome.err sampleState).2 →
        Event.setResult r ∈ tail) :=
  handleValuation_phase_order sampleState "t" CollabOutcome.err "photo.jpg" rfl

/-- C6: the startup loader never fails: with no usable saved string or
a string `JSON.parse` rejects it starts from the empty sequence, and a
string that parses becomes the initial history. `parse` ranges over
parse primitives that reject the empty string, as `JSON.parse` does. -/
theorem initHistory_fail_soft (parse : String → Option Json)
    (hp : parse "" = none) (s : String) :
    initHistory parse none = Json.arr [] ∧
    (parse s = none → initHistory parse (some s) = Json.arr []) ∧
    (∀ j, parse s = some j → initHistory parse (some s) = j) := by
  refine ⟨rfl, fun hfail => ?_, fun j hj => ?_⟩
  · by_cases hs : s = "" <;> simp [initHistory, hs, hfail]
  · by_cases hs : s = ""
    · rw [hs, hp] at hj
      cases hj
    · simp [initHistory, hs, hj]

/-- C6, witness with a concrete parse primitive: a corrupt string
yields the empty ledger, a parseable one yields its parse. -/
theorem initHistory_fail_soft_witness :
    initHistory parseStub none = Json.arr [] ∧
    initHistory parseStub (some "corrupt\x7b") = Json.arr [] ∧
    initHistory parseStub (some "[]") = Json.arr [] :=
  ⟨(initHistory_fail_soft parseStub rfl "corrupt\x7b").1,
   (initHistory_fail_soft parseStub rfl "corrupt\x7b").2.1 rfl,
   (initHistory_fail_soft parseStub rfl "[]").2.2 (Json.arr []) rfl⟩

/-- C7: exporting a non-empty history produces the serialized document
and parsing that document back yields exactly the in-memory sequence. -/
theorem export_reparse_roundtrip (h : List ValuationResult) (hne : h ≠ []) :
    exportResults h = some (encodeHistory h) ∧
    decodeHistory (encodeHistory h) = some h :=
  ⟨by simp [exportResults, hne], decodeHistory_encodeHistory h⟩

/-- C7, witness at a concrete one-entry history. -/
theorem export_reparse_roundtrip_witness :
    exportResults [sampleResult] = some (encodeHistory [sampleResult]) ∧
    decodeHistory (encodeHistory [sampleResult]) = some [sampleResult] :=
  export_reparse_roundtrip [sampleResult] (by simp)

/-- C8, counterexample: with the environment secret absent, module
initialization of the Gemini service still succeeds (the undefined key
is stored in the client); no startup failure is raised. -/
theorem moduleInit_absent_key_no_failure :
    moduleInit none = Except.ok { apiKey := none } ∧
    ∀ e, moduleInit none ≠ Except.error e :=
  ⟨rfl, fun _ h => Except.noConfusion h⟩

/-- C8, amended: startup never checks the credential; the environment
value, present or absent, is handed to the collaborator client, and
failures can only surface later, at request time. -/
theorem moduleInit_always_succeeds (env : Option String) :
    moduleInit env = Except.ok { apiKey := env } := rfl

/-- C9: with no selected image the workflow invocation changes nothing
and performs no action; with a selected image its very first action,
before any phase, clears the previous result. -/
theorem handleValuation_entry_guard (s : AppState) (stamp : String)
    (outcome : CollabOutcome) :
    (s.file = none → handleValuation stamp outcome s = (s, [])) ∧
    (∀ f, s.file = some f →
      (handleValuation stamp outcome s).2.head? = some Event.clearResult) := by
  refine ⟨fun h => ?_, fun f h => ?_⟩
  · simp [handleValuation, h]
  · cases outcome <;> simp [handleValuation, phaseLoop, steps, h]

/-- C9, witness: a concrete imageless state is left untouched, and a
concrete state with an image starts by clearing the result. -/
theorem handleValuation_entry_guard_witness :
    handleValuation "t" CollabOutcome.err sampleStateNoFile = (sampleStateNoFile, []) ∧
    (handleValuation "t" CollabOutcome.err sampleState).2.head? = some Event.clearResult :=
  ⟨(handleValuation_entry_guard sampleStateNoFile "t" CollabOutcome.err).1 rfl,
   (handleValuation_entry_guard sampleState "t" CollabOutcome.err).2 "photo.jpg" rfl⟩

/-- C10: declining the confirmation prompt leaves the whole state,
history and persisted slot included, unchanged; accepting it empties
the history and persists the empty sequence. -/
theorem clearHistory_requires_confirmation (s : AppState) :
    clearHistory false s = s ∧
    (clearHistory true s).history = [] ∧
    (clearHistory true s).storage = some (encodeHistory []) :=
  ⟨rfl, rfl, rfl⟩

end OpPrice

